import Mathlib

/-!
Verification of the stealth-address demo server's scheme dispatch subsystem.

Shallow embedding of the Python sources:
* `server/common/base_utils.py` (hex codec, index validation)
* `server/schemes/stealth/stealth_utils.py`, `server/schemes/sitaiba/sitaiba_utils.py`
  (buffer-to-hex conversion, key matching)
* `server/multi_scheme_config.py` (per-scheme session state)
* `server/common/base_services.py` (service operations)
* `server/schemes/scheme_manager.py` + `server/schemes/base_scheme.py` (plugin dispatch)
* `server/scheme_manager.py` (dynamic library manager)

Python strings are embedded as `List Char`, byte buffers as `List Nat`
(one entry per byte), dicts with fixed keys as structures, and the native
library as an explicit oracle/environment parameter.  Native calls are
recorded as events so that "the native layer was not touched" is provable.
-/

/-- Decidable equality for `Except`, so that concrete runs of the fallible
operations can be checked by `decide`. -/
instance {ε α : Type} [DecidableEq ε] [DecidableEq α] : DecidableEq (Except ε α) := fun a b =>
  match a, b with
  | .ok x, .ok y =>
    if h : x = y then .isTrue (by rw [h]) else .isFalse (by intro hc; cases hc; exact h rfl)
  | .error x, .error y =>
    if h : x = y then .isTrue (by rw [h]) else .isFalse (by intro hc; cases hc; exact h rfl)
  | .ok _, .error _ => .isFalse (by intro hc; cases hc)
  | .error _, .ok _ => .isFalse (by intro hc; cases hc)

/-! ### Hex codec (`bytes.fromhex` / `bytes.hex` as used by `base_utils.py`) -/

/-- Python's `Py_ISSPACE` over the ASCII whitespace characters, which
`bytes.fromhex` skips at byte boundaries. -/
def pyIsSpace (c : Char) : Bool :=
  c.toNat = 32 || c.toNat = 9 || c.toNat = 10 ||
  c.toNat = 11 || c.toNat = 12 || c.toNat = 13

/-- Value of a hexadecimal digit as accepted by CPython's `bytes.fromhex`
(`0-9`, `a-f`, `A-F`); `none` for every other character. -/
def hexDigitVal (c : Char) : Option Nat :=
  if 48 ≤ c.toNat ∧ c.toNat ≤ 57 then some (c.toNat - 48)
  else if 97 ≤ c.toNat ∧ c.toNat ≤ 102 then some (c.toNat - 87)
  else if 65 ≤ c.toNat ∧ c.toNat ≤ 70 then some (c.toNat - 55)
  else none

/-- CPython's `bytes.fromhex`: ASCII whitespace is skipped before each byte,
then two hex digits are consumed; a missing or invalid digit aborts with an
error (`none`). -/
def pyFromHex : List Char → Option (List Nat)
  | [] => some []
  | c :: cs =>
    if pyIsSpace c then pyFromHex cs
    else
      match hexDigitVal c with
      | none => none
      | some hi =>
        match cs with
        | [] => none
        | c2 :: cs2 =>
          match hexDigitVal c2 with
          | none => none
          | some lo => (pyFromHex cs2).map fun bs => (16 * hi + lo) :: bs

/-- `base_utils.hex_to_bytes_safe`: rejects the empty string, left-pads an
odd-length string with one `'0'`, then decodes with `bytes.fromhex`,
re-raising its failure as a `ValueError`. -/
def hex_to_bytes_safe (hex_str : List Char) : Except (List Char) (List Nat) :=
  if hex_str.isEmpty then .error "Empty hex string".toList
  else
    let padded := if hex_str.length % 2 ≠ 0 then '0' :: hex_str else hex_str
    match pyFromHex padded with
    | some bs => .ok bs
    | none => .error "Invalid hex string".toList

/-- Lowercase hex digit character of a nibble, as produced by `bytes.hex()`. -/
def nibbleChar (n : Nat) : Char :=
  if n < 10 then Char.ofNat (48 + n) else Char.ofNat (87 + n)

/-- `bytes.hex()`: lowercase hexadecimal rendering of a byte string. -/
def bytesToHex : List Nat → List Char
  | [] => []
  | b :: bs => nibbleChar (b / 16 % 16) :: nibbleChar (b % 16) :: bytesToHex bs

/-- Element sizes reported by a loaded native library
(`get_element_sizes()` returning the G1 and Zr sizes). -/
structure ElementSizes where
  g1 : Nat
  zr : Nat
deriving DecidableEq, Repr

/-- Expected size chosen by `StealthUtils.bytes_to_hex_safe_fixed`: the G1 or
Zr size for the recognised element types; any other type raises inside the
`try`, and the bare `except` falls back to 512. -/
def stealthExpectedSize (sizes : Option ElementSizes) (elementType : List Char) : Nat :=
  match sizes with
  | none => 512
  | some s =>
    if elementType = "G1".toList then s.g1
    else if elementType = "Zr".toList then s.zr
    else 512

/-- `StealthUtils.bytes_to_hex_safe_fixed` (stealth scheme): truncates the
buffer to the expected element size (clamped to the buffer length) and
returns the empty string when every byte of the truncation is zero. -/
def stealth_bytes_to_hex_safe_fixed (sizes : Option ElementSizes)
    (elementType : List Char) (buf : List Nat) : List Char :=
  let expected := stealthExpectedSize sizes elementType
  let expected := if expected > buf.length then buf.length else expected
  let data := buf.take expected
  if data.all (· = 0) then [] else bytesToHex data

/-- Element size chosen by sitaiba's `bytes_to_hex_safe_fixed`: G1, Zr, or
the maximum of both for any other element type. -/
def sitaibaElemSize (s : ElementSizes) (elementType : List Char) : Nat :=
  if elementType = "G1".toList then s.g1
  else if elementType = "Zr".toList then s.zr
  else max s.g1 s.zr

/-- sitaiba's `bytes_to_hex_safe_fixed` (`sitaiba_utils.py`): returns `""`
for a falsy (empty) buffer or when the library is unavailable (the
`except` branch), and otherwise hex-encodes the size-truncated buffer with
no all-zero check. -/
def sitaiba_bytes_to_hex_safe_fixed (sizes : Option ElementSizes)
    (elementType : List Char) (buf : List Nat) : List Char :=
  if buf.isEmpty then []
  else
    match sizes with
    | none => []
    | some s => bytesToHex (buf.take (sitaibaElemSize s elementType))

/-- Characters that `hexDigitVal` maps to a lowercase-producing value:
decimal digits and `a`-`f`. -/
def isLowerHexDigit (c : Char) : Bool :=
  (48 ≤ c.toNat && c.toNat ≤ 57) || (97 ≤ c.toNat && c.toNat ≤ 102)

/-! ### Session state (`multi_scheme_config.py`) -/

/-- The two scheme keys of `MultiSchemeConfig.schemes_data`. -/
inductive SchemeName
  | stealth
  | sitaiba
deriving DecidableEq, Repr

/-- Tracer key dict (`trace_key`): public (`TK_hex`) and private (`k_hex`)
components. -/
structure TraceKeyRec where
  TK_hex : List Char
  k_hex : List Char
deriving DecidableEq, Repr

/-- A key dict appended by `BaseSchemeService.generate_keypair`. -/
structure KeyItem where
  index : Nat
  id : List Char
  A_hex : List Char
  B_hex : List Char
  a_hex : List Char
  b_hex : List Char
  param_file : Option (List Char)
  scheme : SchemeName
deriving DecidableEq, Repr

/-- An address dict appended by `BaseSchemeService.generate_address`. -/
structure AddrItem where
  index : Nat
  id : List Char
  addr_hex : List Char
  r1_hex : List Char
  r2_hex : List Char
  key_index : Nat
  key_id : List Char
  owner_A : List Char
  owner_B : List Char
  scheme : SchemeName
deriving DecidableEq, Repr

/-- A scheme-specific DSK dict (shape owned by `_call_c_generate_dsk`). -/
abbrev DskItem := List (List Char × List Char)

/-- A scheme-specific transaction-message dict (stealth only). -/
abbrev TxItem := List (List Char × List Char)

/-- One entry of `schemes_data`: the per-scheme session state.  The
`tx_message_list` key exists only in the stealth entry, hence the `Option`. -/
structure SchemeData where
  system_initialized : Bool
  current_param_file : Option (List Char)
  trace_key : Option TraceKeyRec
  key_list : List KeyItem
  address_list : List AddrItem
  dsk_list : List DskItem
  tx_message_list : Option (List TxItem)
  dsk_functions_available : Bool
deriving DecidableEq, Repr

/-- Fresh per-scheme state as built in `MultiSchemeConfig.__init__`. -/
def initialSchemeData (hasTx : Bool) : SchemeData :=
  { system_initialized := false, current_param_file := none, trace_key := none,
    key_list := [], address_list := [], dsk_list := [],
    tx_message_list := if hasTx then some [] else none,
    dsk_functions_available := false }

/-- The whole `MultiSchemeConfig` object: both scheme entries plus the
`current_scheme` pointer. -/
structure MultiSchemeConfig where
  stealthData : SchemeData
  sitaibaData : SchemeData
  current_scheme : SchemeName
deriving DecidableEq, Repr

/-- The module-level `config = MultiSchemeConfig()` starting state
(default scheme `stealth`; only stealth has a `tx_message_list`). -/
def initialConfig : MultiSchemeConfig :=
  ⟨initialSchemeData true, initialSchemeData false, .stealth⟩

/-- `MultiSchemeConfig.get_scheme_data`. -/
def getSchemeData (cfg : MultiSchemeConfig) : SchemeName → SchemeData
  | .stealth => cfg.stealthData
  | .sitaiba => cfg.sitaibaData

/-- Replacement of one entry of `schemes_data` (dict item mutation). -/
def setSchemeData (cfg : MultiSchemeConfig) : SchemeName → SchemeData → MultiSchemeConfig
  | .stealth, d => { cfg with stealthData := d }
  | .sitaiba, d => { cfg with sitaibaData := d }

/-- `MultiSchemeConfig.set_current_scheme`. -/
def set_current_scheme (cfg : MultiSchemeConfig) (s : SchemeName) : MultiSchemeConfig :=
  { cfg with current_scheme := s }

/-- Body of `MultiSchemeConfig.reset_scheme` on one entry: clears the
collections (and `tx_message_list` only when the key exists), drops the
tracer key and parameter file, and flips `system_initialized` to false.
`dsk_functions_available` is not touched. -/
def resetSchemeData (d : SchemeData) : SchemeData :=
  { d with key_list := [], address_list := [], dsk_list := [],
           tx_message_list := d.tx_message_list.map fun _ => [],
           trace_key := none, system_initialized := false,
           current_param_file := none }

/-- `MultiSchemeConfig.reset_scheme` (optional target defaults to the current
scheme). -/
def reset_scheme (cfg : MultiSchemeConfig) (target : Option SchemeName) : MultiSchemeConfig :=
  let t := target.getD cfg.current_scheme
  setSchemeData cfg t (resetSchemeData (getSchemeData cfg t))

/-- `MultiSchemeConfig.reset_all_schemes`. -/
def reset_all_schemes (cfg : MultiSchemeConfig) : MultiSchemeConfig :=
  let cfg := reset_scheme cfg (some .stealth)
  reset_scheme cfg (some .sitaiba)

/-- `MultiSchemeConfig.set_initialized` (optional target defaults to the
current scheme). -/
def set_initialized (cfg : MultiSchemeConfig) (param_file : List Char)
    (tk : TraceKeyRec) (target : Option SchemeName) : MultiSchemeConfig :=
  let t := target.getD cfg.current_scheme
  let d := getSchemeData cfg t
  setSchemeData cfg t
    { d with system_initialized := true, current_param_file := some param_file,
             trace_key := some tk }

/-- State update applied to the current scheme entry (the `config.key_list`
style property accesses mutate `get_current_data()`). -/
def updCurrentData (cfg : MultiSchemeConfig) (f : SchemeData → SchemeData) : MultiSchemeConfig :=
  setSchemeData cfg cfg.current_scheme (f (getSchemeData cfg cfg.current_scheme))

/-- The state-mutating `MultiSchemeConfig` operations reachable from the
service layer: switching the current pointer, resets, `set_initialized`,
appends to the current scheme's collections, and the
`dsk_functions_available` assignment from `setup_system`. -/
inductive ConfigOp
  | setCurrent (s : SchemeName)
  | reset (target : Option SchemeName)
  | resetAll
  | setInit (param_file : List Char) (tk : TraceKeyRec) (target : Option SchemeName)
  | appendKey (k : KeyItem)
  | appendAddr (a : AddrItem)
  | appendDsk (d : DskItem)
  | appendTx (t : TxItem)
  | setDskAvail (s : SchemeName) (b : Bool)
deriving DecidableEq, Repr

/-- Semantics of one `ConfigOp` on the configuration.  `appendTx` on a scheme
without a `tx_message_list` appends to the fresh list returned by
`dict.get(..., [])` and is therefore lost, exactly as in the source. -/
def applyConfigOp (cfg : MultiSchemeConfig) : ConfigOp → MultiSchemeConfig
  | .setCurrent s => set_current_scheme cfg s
  | .reset target => reset_scheme cfg target
  | .resetAll => reset_all_schemes cfg
  | .setInit pf tk target => set_initialized cfg pf tk target
  | .appendKey k => updCurrentData cfg fun d => { d with key_list := d.key_list ++ [k] }
  | .appendAddr a => updCurrentData cfg fun d => { d with address_list := d.address_list ++ [a] }
  | .appendDsk dk => updCurrentData cfg fun d => { d with dsk_list := d.dsk_list ++ [dk] }
  | .appendTx t =>
    updCurrentData cfg fun d =>
      { d with tx_message_list := d.tx_message_list.map fun l => l ++ [t] }
  | .setDskAvail s b =>
    setSchemeData cfg s { getSchemeData cfg s with dsk_functions_available := b }

/-- Whether an operation, run in configuration `cfg`, may mutate the session
state of scheme `s`. -/
def opTouchesScheme (cfg : MultiSchemeConfig) : ConfigOp → SchemeName → Bool
  | .setCurrent _, _ => false
  | .reset target, s => target.getD cfg.current_scheme = s
  | .resetAll, _ => true
  | .setInit _ _ target, s => target.getD cfg.current_scheme = s
  | .appendKey _, s => cfg.current_scheme = s
  | .appendAddr _, s => cfg.current_scheme = s
  | .appendDsk _, s => cfg.current_scheme = s
  | .appendTx _, s => cfg.current_scheme = s
  | .setDskAvail t _, s => t = s

/-- Run a sequence of configuration operations. -/
def runConfigOps (cfg : MultiSchemeConfig) : List ConfigOp → MultiSchemeConfig
  | [] => cfg
  | o :: rest => runConfigOps (applyConfigOp cfg o) rest

/-- A sequence of operations avoids scheme `s` when no step of the run
touches `s`'s session state. -/
def avoidsScheme (s : SchemeName) : MultiSchemeConfig → List ConfigOp → Bool
  | _, [] => true
  | cfg, o :: rest => !opTouchesScheme cfg o s && avoidsScheme s (applyConfigOp cfg o) rest

/-! ### Key matching (`stealth_utils.py` / `sitaiba_utils.py`) -/

/-- Result dict of `StealthUtils.find_matching_key` (fields `index`, `id`,
`match`). -/
structure StealthMatch where
  index : Nat
  id : List Char
  match_flag : Bool
deriving DecidableEq, Repr

/-- Result dict of sitaiba's `find_matching_key` (fields `index`, `id`,
`A_hex`, `B_hex`, `match_type`). -/
structure SitaibaMatch where
  index : Nat
  id : List Char
  A_hex : List Char
  B_hex : List Char
  match_type : List Char
deriving DecidableEq, Repr

/-- The `for i, key in enumerate(config.key_list)` loop of
`StealthUtils.find_matching_key`. -/
def stealthFindAux (target : List Char) : Nat → List KeyItem → Option StealthMatch
  | _, [] => none
  | i, k :: rest =>
    if k.B_hex = target then some ⟨i, k.id, true⟩ else stealthFindAux target (i + 1) rest

/-- `StealthUtils.find_matching_key`: exact `B_hex` match only. -/
def stealth_find_matching_key (keys : List KeyItem) (target_b_hex : List Char) :
    Option StealthMatch :=
  stealthFindAux target_b_hex 0 keys

/-- First pass of sitaiba's `find_matching_key`: exact `B_hex` equality. -/
def sitaibaExactFind : List KeyItem → List Char → Option KeyItem
  | [], _ => none
  | k :: rest, target =>
    if k.B_hex = target then some k else sitaibaExactFind rest target

/-- Second pass of sitaiba's `find_matching_key`:
`b_hex.startswith(target_prefix)`. -/
def sitaibaPartialFind : List KeyItem → List Char → Option KeyItem
  | [], _ => none
  | k :: rest, p =>
    if p.isPrefixOf k.B_hex then some k else sitaibaPartialFind rest p

/-- The first ten characters of the trace target used by the fallback pass. -/
def sitaibaTargetHead (target_hex : List Char) : List Char :=
  if 10 ≤ target_hex.length then target_hex.take 10 else target_hex

/-- sitaiba's `find_matching_key`: `none` for an empty target; otherwise an
exact match tagged `"perfect"`, falling back to a first-10-characters
partial match tagged `"partial"`. -/
def sitaiba_find_matching_key (keys : List KeyItem) (target_hex : List Char) :
    Option SitaibaMatch :=
  if target_hex.isEmpty then none
  else
    match sitaibaExactFind keys target_hex with
    | some k => some ⟨k.index, k.id, k.A_hex, k.B_hex, "perfect".toList⟩
    | none =>
      match sitaibaPartialFind keys (sitaibaTargetHead target_hex) with
      | some k => some ⟨k.index, k.id, k.A_hex, k.B_hex, "partial".toList⟩
      | none => none

/-! ### Service layer (`base_services.py`), native calls as an oracle -/

instance : Inhabited KeyItem := ⟨⟨0, [], [], [], [], [], none, .stealth⟩⟩

instance : Inhabited AddrItem := ⟨⟨0, [], [], [], [], 0, [], [], [], .stealth⟩⟩

/-- Native-boundary calls recorded during a service operation. -/
inductive NativeEv
  | initCalled
  | keygenCalled (buf_size : Nat)
  | addrGenCalled (buf_size : Nat)
  | recognizeCalled (fast : Bool)
  | dskGenCalled
  | traceCalled
  | perfCalled (iterations : Int)
deriving DecidableEq, Repr

/-- Typed counterparts of the exceptions raised by the service layer. -/
inductive SvcError
  | notInitialized (s : SchemeName)
  | indexOutOfRange (item_name : List Char) (index : Int) (upper : Nat)
  | tracerKeyMissing
  | malformedHex
  | emptyOutput
  | paramFileNotFound
  | initFailed
deriving DecidableEq, Repr

/-- Outcome of a service call: the (possibly mutated) configuration, the
returned payload or raised error, and the native calls made. -/
structure SvcOut (α : Type) where
  cfg : MultiSchemeConfig
  result : Except SvcError α
  native : List NativeEv

/-- The four buffers filled by `_call_c_keygen`. -/
structure KeygenBufs where
  A : List Nat
  B : List Nat
  a : List Nat
  b : List Nat

/-- The three buffers filled by `_call_c_addr_gen`. -/
structure AddrGenBufs where
  addr : List Nat
  r1 : List Nat
  r2 : List Nat

/-- The dict built by a scheme's `_call_c_trace_identity`. -/
structure TraceOutcome where
  recovered_b_hex : List Char
  matched_key : Option (List (List Char × List Char))
  perfect_match : Bool
deriving DecidableEq, Repr

/-- The loaded native library and filesystem, as an oracle: element sizes,
buffer-filling calls, boolean recognition, the scheme-specific DSK/trace
calls (`none` models their internal failure exceptions), the benchmark, and
the pieces consumed by `setup_system`. -/
structure NativeEnv where
  sizes : ElementSizes
  keygen : Nat → KeygenBufs
  addrGen : List Nat → List Nat → List Nat → Nat → AddrGenBufs
  recognize : AddrItem → KeyItem → Bool → Bool
  dskGen : AddrItem → KeyItem → Option DskItem
  traceId : AddrItem → Option TraceOutcome
  perf : Int → List (List Char × Int)
  paramFileExists : List Char → Bool
  initCode : List Char → Int
  libInitialized : Bool
  tracerKey : TraceKeyRec
  dskAvail : Option Bool

/-- `scheme_utils.get_element_size` dispatched on the current scheme:
stealth returns 512 before initialization, both clamp below by 512. -/
def get_element_size (cfg : MultiSchemeConfig) (env : NativeEnv) : Nat :=
  match cfg.current_scheme with
  | .stealth =>
    if (getSchemeData cfg .stealth).system_initialized then
      max env.sizes.g1 (max env.sizes.zr 512)
    else 512
  | .sitaiba => max env.sizes.g1 (max env.sizes.zr 512)

/-- `scheme_utils.bytes_to_hex_safe_fixed` dispatched on the current scheme. -/
def bytes_to_hex_dispatch (cfg : MultiSchemeConfig) (env : NativeEnv)
    (elementType : List Char) (buf : List Nat) : List Char :=
  match cfg.current_scheme with
  | .stealth => stealth_bytes_to_hex_safe_fixed (some env.sizes) elementType buf
  | .sitaiba => sitaiba_bytes_to_hex_safe_fixed (some env.sizes) elementType buf

/-- `base_utils.validate_index`: accepts `0 <= index < len`. -/
def validIndex (index : Int) (len : Nat) : Bool :=
  decide (0 ≤ index) && decide (index < (len : Int))

/-- `BaseSchemeService.setup_system`: validates the parameter file, runs the
native `init` (nonzero return code or a failed `is_initialized` check
abort), resets the scheme state, generates the tracer key, marks the scheme
initialized, and records DSK availability when the wrapper exposes it. -/
structure SetupPayload where
  param_file : List Char
  g1_size : Nat
  zr_size : Nat
  scheme : SchemeName
  tracer : TraceKeyRec
deriving DecidableEq, Repr

/-- See `SetupPayload`. -/
def setup_system (env : NativeEnv) (cfg0 : MultiSchemeConfig) (scheme : SchemeName)
    (param_file : List Char) : SvcOut SetupPayload :=
  let cfg := set_current_scheme cfg0 scheme
  if env.paramFileExists param_file = false then
    ⟨cfg, .error .paramFileNotFound, []⟩
  else if env.initCode param_file ≠ 0 then
    ⟨cfg, .error .initFailed, [.initCalled]⟩
  else if env.libInitialized = false then
    ⟨cfg, .error .initFailed, [.initCalled]⟩
  else
    let cfg := reset_scheme cfg (some scheme)
    let cfg := set_initialized cfg param_file env.tracerKey (some scheme)
    let cfg :=
      match env.dskAvail with
      | some b => setSchemeData cfg scheme
          { getSchemeData cfg scheme with dsk_functions_available := b }
      | none => cfg
    ⟨cfg, .ok ⟨param_file, env.sizes.g1, env.sizes.zr, scheme, env.tracerKey⟩,
     [.initCalled]⟩

/-- `BaseSchemeService.generate_keypair`. -/
def generate_keypair (env : NativeEnv) (cfg0 : MultiSchemeConfig) (scheme : SchemeName) :
    SvcOut KeyItem :=
  let cfg := set_current_scheme cfg0 scheme
  let d := getSchemeData cfg scheme
  if d.system_initialized = false then
    ⟨cfg, .error (.notInitialized scheme), []⟩
  else
    let buf_size := get_element_size cfg env
    let bufs := env.keygen buf_size
    let A_hex := bytes_to_hex_dispatch cfg env "G1".toList bufs.A
    let B_hex := bytes_to_hex_dispatch cfg env "G1".toList bufs.B
    let a_hex := bytes_to_hex_dispatch cfg env "Zr".toList bufs.a
    let b_hex := bytes_to_hex_dispatch cfg env "Zr".toList bufs.b
    if A_hex.isEmpty || B_hex.isEmpty || a_hex.isEmpty || b_hex.isEmpty then
      ⟨cfg, .error .emptyOutput, [.keygenCalled buf_size]⟩
    else
      let item : KeyItem :=
        { index := d.key_list.length,
          id := "key_".toList ++ Nat.toDigits 10 d.key_list.length,
          A_hex := A_hex, B_hex := B_hex, a_hex := a_hex, b_hex := b_hex,
          param_file := d.current_param_file, scheme := scheme }
      ⟨setSchemeData cfg scheme { d with key_list := d.key_list ++ [item] },
       .ok item, [.keygenCalled buf_size]⟩

/-- `BaseSchemeService.generate_address`: initialization and index checks
precede the tracer-key check, the hex unmarshalling, and the native call. -/
def generate_address (env : NativeEnv) (cfg0 : MultiSchemeConfig) (scheme : SchemeName)
    (key_index : Int) : SvcOut AddrItem :=
  let cfg := set_current_scheme cfg0 scheme
  let d := getSchemeData cfg scheme
  if d.system_initialized = false then
    ⟨cfg, .error (.notInitialized scheme), []⟩
  else if validIndex key_index d.key_list.length = false then
    ⟨cfg, .error (.indexOutOfRange "key_index".toList key_index d.key_list.length), []⟩
  else
    match d.trace_key with
    | none => ⟨cfg, .error .tracerKeyMissing, []⟩
    | some tk =>
      let selected := d.key_list.getD key_index.toNat default
      match hex_to_bytes_safe selected.A_hex, hex_to_bytes_safe selected.B_hex,
          hex_to_bytes_safe tk.TK_hex with
      | .ok A_bytes, .ok B_bytes, .ok TK_bytes =>
        let buf_size := get_element_size cfg env
        let bufs := env.addrGen A_bytes B_bytes TK_bytes buf_size
        let addr_hex := bytes_to_hex_dispatch cfg env "G1".toList bufs.addr
        let r1_hex := bytes_to_hex_dispatch cfg env "G1".toList bufs.r1
        let r2_hex := bytes_to_hex_dispatch cfg env "G1".toList bufs.r2
        if addr_hex.isEmpty || r1_hex.isEmpty || r2_hex.isEmpty then
          ⟨cfg, .error .emptyOutput, [.addrGenCalled buf_size]⟩
        else
          let item : AddrItem :=
            { index := d.address_list.length,
              id := "addr_".toList ++ Nat.toDigits 10 d.address_list.length,
              addr_hex := addr_hex, r1_hex := r1_hex, r2_hex := r2_hex,
              key_index := key_index.toNat, key_id := selected.id,
              owner_A := selected.A_hex, owner_B := selected.B_hex,
              scheme := scheme }
          ⟨setSchemeData cfg scheme { d with address_list := d.address_list ++ [item] },
           .ok item, [.addrGenCalled buf_size]⟩
      | _, _, _ => ⟨cfg, .error .malformedHex, []⟩

/-- Payload of `BaseSchemeService.recognize_address`. -/
structure RecPayload where
  recognized : Bool
  address_index : Int
  key_index : Int
  address_id : List Char
  key_id : List Char
  is_owner : Bool
  method : List Char
  scheme : SchemeName
deriving DecidableEq, Repr

/-- `BaseSchemeService.recognize_address`. -/
def recognize_address (env : NativeEnv) (cfg0 : MultiSchemeConfig) (scheme : SchemeName)
    (address_index key_index : Int) (fast : Bool) : SvcOut RecPayload :=
  let cfg := set_current_scheme cfg0 scheme
  let d := getSchemeData cfg scheme
  if d.system_initialized = false then
    ⟨cfg, .error (.notInitialized scheme), []⟩
  else if validIndex address_index d.address_list.length = false then
    ⟨cfg, .error (.indexOutOfRange "address_index".toList address_index
      d.address_list.length), []⟩
  else if validIndex key_index d.key_list.length = false then
    ⟨cfg, .error (.indexOutOfRange "key_index".toList key_index d.key_list.length), []⟩
  else
    let address_data := d.address_list.getD address_index.toNat default
    let key_data := d.key_list.getD key_index.toNat default
    let recognized := env.recognize address_data key_data fast
    ⟨cfg,
     .ok { recognized := recognized, address_index := address_index,
           key_index := key_index, address_id := address_data.id,
           key_id := key_data.id,
           is_owner := decide ((address_data.key_index : Int) = key_index),
           method := if fast then "fast".toList else "full".toList,
           scheme := scheme },
     [.recognizeCalled fast]⟩

/-- `BaseSchemeService.generate_dsk`. -/
def generate_dsk (env : NativeEnv) (cfg0 : MultiSchemeConfig) (scheme : SchemeName)
    (address_index key_index : Int) : SvcOut DskItem :=
  let cfg := set_current_scheme cfg0 scheme
  let d := getSchemeData cfg scheme
  if d.system_initialized = false then
    ⟨cfg, .error (.notInitialized scheme), []⟩
  else if validIndex address_index d.address_list.length = false then
    ⟨cfg, .error (.indexOutOfRange "address_index".toList address_index
      d.address_list.length), []⟩
  else if validIndex key_index d.key_list.length = false then
    ⟨cfg, .error (.indexOutOfRange "key_index".toList key_index d.key_list.length), []⟩
  else
    let address_data := d.address_list.getD address_index.toNat default
    let key_data := d.key_list.getD key_index.toNat default
    match env.dskGen address_data key_data with
    | none => ⟨cfg, .error .emptyOutput, [.dskGenCalled]⟩
    | some dsk_item =>
      ⟨setSchemeData cfg scheme { d with dsk_list := d.dsk_list ++ [dsk_item] },
       .ok dsk_item, [.dskGenCalled]⟩

/-- Payload of `BaseSchemeService.trace_identity`. -/
structure TracePayload where
  recovered_b_hex : List Char
  address_index : Int
  address_id : List Char
  owner_key_index : Nat
  owner_key_id : List Char
  owner_B_hex : List Char
  matched_key : Option (List (List Char × List Char))
  perfect_match : Bool
  scheme : SchemeName
deriving DecidableEq, Repr

/-- `BaseSchemeService.trace_identity`. -/
def trace_identity (env : NativeEnv) (cfg0 : MultiSchemeConfig) (scheme : SchemeName)
    (address_index : Int) : SvcOut TracePayload :=
  let cfg := set_current_scheme cfg0 scheme
  let d := getSchemeData cfg scheme
  if d.system_initialized = false then
    ⟨cfg, .error (.notInitialized scheme), []⟩
  else if validIndex address_index d.address_list.length = false then
    ⟨cfg, .error (.indexOutOfRange "address_index".toList address_index
      d.address_list.length), []⟩
  else
    match d.trace_key with
    | none => ⟨cfg, .error .tracerKeyMissing, []⟩
    | some _ =>
      let address_data := d.address_list.getD address_index.toNat default
      match env.traceId address_data with
      | none => ⟨cfg, .error .emptyOutput, [.traceCalled]⟩
      | some t =>
        ⟨cfg,
         .ok { recovered_b_hex := t.recovered_b_hex, address_index := address_index,
               address_id := address_data.id,
               owner_key_index := address_data.key_index,
               owner_key_id := address_data.key_id,
               owner_B_hex := address_data.owner_B,
               matched_key := t.matched_key, perfect_match := t.perfect_match,
               scheme := scheme },
         [.traceCalled]⟩

/-- Payload of `BaseSchemeService.performance_test` (and of the structurally
identical static `SitaibaServices.performance_test`). -/
structure PerfPayload where
  iterations : Int
  scheme : SchemeName
  results : List (List Char × Int)
deriving DecidableEq, Repr

/-- `BaseSchemeService.performance_test`: clamps the iteration count with
`min(iterations, 1000)` before the native benchmark and reports the clamped
value in the payload. -/
def performance_test (env : NativeEnv) (cfg0 : MultiSchemeConfig) (scheme : SchemeName)
    (iterations : Int) : SvcOut PerfPayload :=
  let cfg := set_current_scheme cfg0 scheme
  let d := getSchemeData cfg scheme
  if d.system_initialized = false then
    ⟨cfg, .error (.notInitialized scheme), []⟩
  else
    let iterations := min iterations 1000
    let results := env.perf iterations
    ⟨cfg, .ok { iterations := iterations, scheme := scheme, results := results },
     [.perfCalled iterations]⟩

/-- A concrete native environment used by the concrete runs below: element
sizes 512, zeroed native buffers, no matches, every parameter file present,
`init` returning 0 and `is_initialized` true. -/
def witnessEnv : NativeEnv :=
  ⟨⟨512, 512⟩, fun _ => ⟨[], [], [], []⟩, fun _ _ _ _ => ⟨[], [], []⟩,
   fun _ _ _ => false, fun _ _ => none, fun _ => none, fun _ => [],
   fun _ => true, fun _ => 0, true, ⟨[], []⟩, none⟩

/-- A concrete configuration whose stealth scheme is initialized. -/
def witnessCfg : MultiSchemeConfig :=
  set_initialized initialConfig ['a'] ⟨[], []⟩ (some .stealth)

/-! ### Plugin dispatch (`schemes/scheme_manager.py`, `schemes/base_scheme.py`) -/

/-- The `SchemeInfo` dataclass: static metadata including the declared
capability list. -/
structure SchemeInfo where
  name : List Char
  version : List Char
  description : List Char
  capabilities : List (List Char)
  param_files : List (List Char)
  author : List Char

/-- Semantics of a `BaseScheme` subclass as seen by dispatch: its metadata
and, for the `sign_message` operation, either an override (the subclass
implements it, possibly calling into the native adapter) or `none` (the
`BaseScheme.sign_message` body runs and raises `NotImplementedError`). -/
structure PluginScheme where
  info : SchemeInfo
  signMessageImpl : Option (List (List Char × List Char) → List (List Char × List Char))

/-- Observable outcome of `SchemeManager.sign_message`.
`capabilityNotSupported` is in the vocabulary so the claim can be stated; the
dispatcher never produces it. -/
inductive SignDispatch
  | noActiveScheme
  | notImplementedErr (schemeName : List Char)
  | capabilityNotSupported
  | invoked (result : List (List Char × List Char))
deriving DecidableEq, Repr

/-- State of the plugin `SchemeManager`: the active scheme instance and its
name. -/
structure PluginManagerState where
  activeScheme : Option PluginScheme
  activeSchemeName : Option (List Char)

/-- `SchemeManager.supports_capability`: consults the declared capability
list of the active scheme (false when none is active). -/
def supports_capability (m : PluginManagerState) (capability : List Char) : Bool :=
  match m.activeScheme with
  | none => false
  | some s => s.info.capabilities.contains capability

/-- `SchemeManager.sign_message`: raises when no scheme is active and
otherwise delegates to the active scheme's `sign_message` method — Python
method resolution, with no capability consultation. -/
def sign_message (m : PluginManagerState)
    (kwargs : List (List Char × List Char)) : SignDispatch :=
  match m.activeScheme with
  | none => .noActiveScheme
  | some s =>
    match s.signMessageImpl with
    | none => .notImplementedErr s.info.name
    | some impl => .invoked (impl kwargs)

/-- A scheme whose declared capability set excludes `sign` but whose class
nevertheless implements `sign_message` (the plugin architecture allows this:
capabilities are plain metadata). -/
def betaScheme : PluginScheme :=
  ⟨⟨"beta".toList, "1.0".toList, [], ["setup".toList, "keygen".toList], [], []⟩,
   some fun _ => [("status".toList, "signed".toList)]⟩

/-! ### Dynamic library manager (`server/scheme_manager.py`) -/

/-- The five registered scheme ids of `SchemeManager.SCHEMES`. -/
inductive LibSchemeId
  | myStealth
  | cryptonote2
  | zhao
  | hdwsa
  | sitaiba
deriving DecidableEq, Repr

/-- The filesystem and native libraries as seen by the library manager:
whether each scheme's `.so` exists, whether it exports a `<prefix>cleanup`
symbol, and whether binding its function signatures succeeds. -/
structure LibEnv where
  available : LibSchemeId → Bool
  hasCleanup : LibSchemeId → Bool
  bindOk : LibSchemeId → Bool

/-- Mutable state of the dynamic `SchemeManager`. -/
structure LibManagerState where
  current_scheme : Option LibSchemeId
  loaded_lib : Option LibSchemeId
  initialized : Bool
deriving DecidableEq, Repr

/-- Observable native/library events during a switch. -/
inductive LibEv
  | cleanupCalled (s : LibSchemeId)
  | libReleased (s : LibSchemeId)
  | libLoaded (s : LibSchemeId)
deriving DecidableEq, Repr

/-- Failures of `switch_scheme`. -/
inductive SwitchErr
  | libraryNotFound
  | switchFailed
deriving DecidableEq, Repr

/-- `SchemeManager._cleanup_current_scheme`: calls the previous library's
cleanup function only if a library is loaded, the scheme is initialized and
the library has the symbol (errors swallowed), then drops the handle and
clears the state. -/
def cleanup_current_scheme (env : LibEnv) (st : LibManagerState) :
    LibManagerState × List LibEv :=
  let cleanupEvs :=
    match st.loaded_lib, st.current_scheme with
    | some _, some cur =>
      if st.initialized && env.hasCleanup cur then [LibEv.cleanupCalled cur] else []
    | _, _ => []
  let releaseEvs :=
    match st.loaded_lib with
    | some l => [LibEv.libReleased l]
    | none => []
  (⟨none, none, false⟩, cleanupEvs ++ releaseEvs)

/-- `SchemeManager.switch_scheme`: unknown-library and missing-file checks,
teardown of the previously loaded library (when one is loaded), then loading
and binding of the new library with the state left uninitialized. -/
def switch_scheme (env : LibEnv) (st : LibManagerState) (sid : LibSchemeId) :
    Except SwitchErr (LibManagerState × List LibEv) :=
  if env.available sid = false then .error .libraryNotFound
  else
    let cleaned := if st.loaded_lib.isSome then cleanup_current_scheme env st else (st, [])
    let st2 : LibManagerState :=
      { cleaned.1 with loaded_lib := some sid, current_scheme := some sid,
                       initialized := false }
    if env.bindOk sid then .ok (st2, cleaned.2 ++ [LibEv.libLoaded sid])
    else .error .switchFailed

/-! ### Lemmas and claim theorems -/

theorem char_eq_of_toNat_eq {c d : Char} (h : c.toNat = d.toNat) : c = d :=
  Char.eq_of_val_eq (UInt32.ext h)

theorem lowerHex_not_space {c : Char} (h : isLowerHexDigit c = true) :
    pyIsSpace c = false := by
  simp only [isLowerHexDigit, Bool.or_eq_true, Bool.and_eq_true, decide_eq_true_eq] at h
  simp only [pyIsSpace, Bool.or_eq_false_iff, decide_eq_false_iff_not]
  omega

theorem lowerHex_digit {c : Char} (h : isLowerHexDigit c = true) :
    ∃ v, hexDigitVal c = some v ∧ v < 16 ∧ nibbleChar v = c := by
  simp only [isLowerHexDigit, Bool.or_eq_true, Bool.and_eq_true, decide_eq_true_eq] at h
  rcases h with ⟨h1, h2⟩ | ⟨h1, h2⟩
  · refine ⟨c.toNat - 48, ?_, by omega, ?_⟩
    · simp [hexDigitVal, h1, h2]
    · have hv : c.toNat - 48 < 10 := by omega
      have : 48 + (c.toNat - 48) = c.toNat := by omega
      simp only [nibbleChar, if_pos hv, this, Char.ofNat_toNat]
  · refine ⟨c.toNat - 87, ?_, by omega, ?_⟩
    · have hno : ¬ (48 ≤ c.toNat ∧ c.toNat ≤ 57) := by omega
      simp [hexDigitVal, hno, h1, h2]
    · have hv : ¬ (c.toNat - 87 < 10) := by omega
      have : 87 + (c.toNat - 87) = c.toNat := by omega
      simp only [nibbleChar, if_neg hv, this, Char.ofNat_toNat]

theorem pyFromHex_lower_roundtrip :
    ∀ l : List Char, (∀ c ∈ l, isLowerHexDigit c = true) → l.length % 2 = 0 →
      ∃ bs, pyFromHex l = some bs ∧ bytesToHex bs = l ∧ bs.length = l.length / 2
  | [], _, _ => ⟨[], by simp [pyFromHex, bytesToHex]⟩
  | [c], hhex, hlen => by simp at hlen
  | c1 :: c2 :: rest, hhex, hlen => by
    have h1 : isLowerHexDigit c1 = true := hhex c1 (by simp)
    have h2 : isLowerHexDigit c2 = true := hhex c2 (by simp)
    obtain ⟨hi, hv1, hlt1, hn1⟩ := lowerHex_digit h1
    obtain ⟨lo, hv2, hlt2, hn2⟩ := lowerHex_digit h2
    obtain ⟨bs, hbs, hhex2, hlen2⟩ :=
      pyFromHex_lower_roundtrip rest (fun c hc => hhex c (by simp [hc]))
        (by simp at hlen ⊢; omega)
    refine ⟨(16 * hi + lo) :: bs, ?_, ?_, ?_⟩
    · simp [pyFromHex, lowerHex_not_space h1, hv1, hv2, hbs]
    · have e1 : (16 * hi + lo) / 16 % 16 = hi := by omega
      have e2 : (16 * hi + lo) % 16 = lo := by omega
      simp [bytesToHex, e1, e2, hn1, hn2, hhex2]
    · simp [hlen2]; omega

theorem bytesToHex_all_zero {bs : List Nat} (h : ∀ b ∈ bs, b = 0) :
    ∀ c ∈ bytesToHex bs, c = '0' := by
  induction bs with
  | nil => simp [bytesToHex]
  | cons b bs ih =>
    have hb : b = 0 := h b (by simp)
    subst hb
    intro c hc
    simp only [bytesToHex, List.mem_cons] at hc
    rcases hc with hc | hc | hc
    · rw [hc]; decide
    · rw [hc]; decide
    · exact ih (fun x hx => h x (by simp [hx])) c hc

theorem pyFromHex_valid_chars :
    ∀ (l : List Char) (bs : List Nat), pyFromHex l = some bs →
      ∀ c ∈ l, pyIsSpace c = true ∨ (hexDigitVal c).isSome = true
  | [], _, _ => by simp
  | c :: cs, bs, h => by
    rw [pyFromHex] at h
    by_cases hs : pyIsSpace c
    · rw [if_pos hs] at h
      intro c' hc'
      rcases List.mem_cons.mp hc' with hc' | hc'
      · exact Or.inl (hc' ▸ hs)
      · exact pyFromHex_valid_chars cs bs h c' hc'
    · rw [if_neg hs] at h
      cases hv : hexDigitVal c with
      | none => simp only [hv] at h; exact Option.noConfusion h
      | some hi =>
        simp only [hv] at h
        cases cs with
        | nil => cases h
        | cons c2 cs2 =>
          cases hv2 : hexDigitVal c2 with
          | none => simp only [hv2] at h; exact Option.noConfusion h
          | some lo =>
            simp only [hv2] at h
            obtain ⟨bs2, hbs2, _⟩ := Option.map_eq_some'.mp h
            intro c' hc'
            rcases List.mem_cons.mp hc' with hc' | hc'
            · exact Or.inr (by simp [hc', hv])
            · rcases List.mem_cons.mp hc' with hc' | hc'
              · exact Or.inr (by simp [hc', hv2])
              · exact pyFromHex_valid_chars cs2 bs2 hbs2 c' hc'

theorem pyFromHex_all_digits :
    ∀ l : List Char, (∀ c ∈ l, (hexDigitVal c).isSome = true) → l.length % 2 = 0 →
      ∃ bs, pyFromHex l = some bs
  | [], _, _ => ⟨[], by simp [pyFromHex]⟩
  | [c], hhex, hlen => by simp at hlen
  | c1 :: c2 :: rest, hhex, hlen => by
    obtain ⟨hi, hv1⟩ := Option.isSome_iff_exists.mp (hhex c1 (by simp))
    obtain ⟨lo, hv2⟩ := Option.isSome_iff_exists.mp (hhex c2 (by simp))
    have hns : pyIsSpace c1 = false := by
      simp only [hexDigitVal] at hv1
      simp only [pyIsSpace, Bool.or_eq_false_iff, decide_eq_false_iff_not]
      split at hv1
      · omega
      · split at hv1
        · omega
        · split at hv1
          · omega
          · cases hv1
    obtain ⟨bs, hbs⟩ :=
      pyFromHex_all_digits rest (fun c hc => hhex c (by simp [hc]))
        (by simp at hlen ⊢; omega)
    exact ⟨(16 * hi + lo) :: bs, by simp [pyFromHex, hns, hv1, hv2, hbs]⟩

/-- C4 counterexample: sitaiba's `bytes_to_hex_safe_fixed` encodes the
all-zero 4-byte buffer (with G1 element size 2) as `"0000"`, not as the
empty string, refuting "returns the empty string for every scheme". -/
theorem c4_counterexample :
    sitaiba_bytes_to_hex_safe_fixed (some ⟨2, 2⟩) "G1".toList [0, 0, 0, 0] =
      ['0', '0', '0', '0'] ∧
    sitaiba_bytes_to_hex_safe_fixed (some ⟨2, 2⟩) "G1".toList [0, 0, 0, 0] ≠ [] := by
  decide

/-- C4 (amended): the stealth encoder maps every all-zero buffer to the empty
string, while the sitaiba encoder performs no all-zero check and returns the
plain hex encoding (a string of zero digits) of the size-truncated buffer. -/
theorem c4_zero_buffer_encoding (sizes : Option ElementSizes) (et : List Char)
    (buf : List Nat) (hz : ∀ b ∈ buf, b = 0) :
    stealth_bytes_to_hex_safe_fixed sizes et buf = [] ∧
    (∀ s, sizes = some s → buf ≠ [] →
      sitaiba_bytes_to_hex_safe_fixed sizes et buf =
        bytesToHex (buf.take (sitaibaElemSize s et)) ∧
      ∀ c ∈ sitaiba_bytes_to_hex_safe_fixed sizes et buf, c = '0') := by
  constructor
  · have hall : ∀ e : Nat, (buf.take e).all (· = 0) = true := by
      intro e
      rw [List.all_eq_true]
      intro x hx
      exact decide_eq_true (hz x (List.take_subset _ _ hx))
    simp only [stealth_bytes_to_hex_safe_fixed]
    rw [if_pos (hall _)]
  · rintro s rfl hne
    have hemp : buf.isEmpty = false := by
      cases buf with
      | nil => exact absurd rfl hne
      | cons a l => rfl
    constructor
    · simp [sitaiba_bytes_to_hex_safe_fixed, hemp]
    · simp only [sitaiba_bytes_to_hex_safe_fixed, hemp, Bool.false_eq_true, if_false]
      exact bytesToHex_all_zero fun b hb => hz b (List.take_subset _ _ hb)

/-- C4 amended witness at a concrete input. -/
theorem c4_zero_buffer_encoding_witness :
    stealth_bytes_to_hex_safe_fixed (some ⟨2, 2⟩) "G1".toList [0, 0] = [] ∧
    sitaiba_bytes_to_hex_safe_fixed (some ⟨2, 2⟩) "G1".toList [0, 0] =
      bytesToHex ([0, 0].take (sitaibaElemSize ⟨2, 2⟩ "G1".toList)) :=
  ⟨(c4_zero_buffer_encoding (some ⟨2, 2⟩) "G1".toList [0, 0] (by decide)).1,
   ((c4_zero_buffer_encoding (some ⟨2, 2⟩) "G1".toList [0, 0] (by decide)).2
     ⟨2, 2⟩ rfl (by decide)).1⟩

/-- C5 counterexample: the decode/encode round trip fails on the valid
even-length hex strings `"00"` (all-zero bytes encode to `""`) and `"AB"`
(uppercase re-encodes as lowercase). -/
theorem c5_counterexample :
    (hex_to_bytes_safe ['0', '0'] = .ok [0] ∧
      stealth_bytes_to_hex_safe_fixed (some ⟨512, 512⟩) "G1".toList [0] = [] ∧
      ([] : List Char) ≠ ['0', '0']) ∧
    (hex_to_bytes_safe ['A', 'B'] = .ok [171] ∧
      stealth_bytes_to_hex_safe_fixed (some ⟨512, 512⟩) "G1".toList [171] = ['a', 'b'] ∧
      (['a', 'b'] : List Char) ≠ ['A', 'B']) := by
  decide

/-- C5 (amended): for every nonempty even-length string of lowercase hex
digits that is not all zeros, decoding with `hex_to_bytes_safe` and
re-encoding the resulting bytes with the stealth `bytes_to_hex_safe_fixed`
(with an element size at least the byte length) yields the string back. -/
theorem c5_roundtrip_lower_nonzero (l : List Char) (es : ElementSizes)
    (h1 : l ≠ []) (h2 : l.length % 2 = 0) (h3 : ∀ c ∈ l, isLowerHexDigit c = true)
    (h4 : ¬ ∀ c ∈ l, c = '0') (hes : l.length / 2 ≤ es.g1) :
    ∃ bs, hex_to_bytes_safe l = .ok bs ∧
      stealth_bytes_to_hex_safe_fixed (some es) "G1".toList bs = l := by
  obtain ⟨bs, hbs, hhex, hlen⟩ := pyFromHex_lower_roundtrip l h3 h2
  have hemp : l.isEmpty = false := by
    cases l with
    | nil => exact absurd rfl h1
    | cons a t => rfl
  refine ⟨bs, ?_, ?_⟩
  · simp only [hex_to_bytes_safe, hemp, Bool.false_eq_true, if_false]
    have : ¬ l.length % 2 ≠ 0 := by omega
    rw [if_neg this, hbs]
  · have hnz : bs.all (· = 0) = false := by
      by_contra hcon
      have hall : bs.all (· = 0) = true := by
        cases hb : bs.all (· = 0) with
        | false => exact absurd hb hcon
        | true => rfl
      have : ∀ c ∈ l, c = '0' := by
        rw [← hhex]
        exact bytesToHex_all_zero fun b hb =>
          of_decide_eq_true (List.all_eq_true.mp hall b hb)
      exact h4 this
    have hsz : bs.length ≤ es.g1 := hlen ▸ hes
    have hexp : stealthExpectedSize (some es) "G1".toList = es.g1 := by
      simp [stealthExpectedSize]
    simp only [stealth_bytes_to_hex_safe_fixed, hexp]
    by_cases hgt : es.g1 > bs.length
    · rw [if_pos hgt, List.take_length, hnz]
      · exact hhex
    · rw [if_neg hgt]
      have : es.g1 = bs.length := by omega
      rw [this, List.take_length, hnz]
      exact hhex

/-- C5 amended witness at the concrete string `"ab"`. -/
theorem c5_roundtrip_lower_nonzero_witness :
    ∃ bs, hex_to_bytes_safe ['a', 'b'] = .ok bs ∧
      stealth_bytes_to_hex_safe_fixed (some ⟨1, 1⟩) "G1".toList bs = ['a', 'b'] :=
  c5_roundtrip_lower_nonzero ['a', 'b'] ⟨1, 1⟩ (by decide) (by decide)
    (by decide) (by decide) (by decide)

/-- C6 counterexample: `hex_to_bytes_safe "ab  cd"` succeeds although the
input contains the space character, which is not a hexadecimal digit —
`bytes.fromhex` skips ASCII whitespace between encoded bytes. -/
theorem c6_counterexample :
    ' ' ∈ ['a', 'b', ' ', ' ', 'c', 'd'] ∧ hexDigitVal ' ' = none ∧
    hex_to_bytes_safe ['a', 'b', ' ', ' ', 'c', 'd'] = .ok [171, 205] := by
  decide

/-- C6 (amended): `hex_to_bytes_safe` fails on the empty string; left-pads an
odd-length input with one zero nibble, behaving exactly as decoding the
padded string; fails whenever the input contains a character that is neither
a hex digit nor ASCII whitespace; and succeeds on every nonempty input made
of hex digits only. -/
theorem c6_hex_to_bytes_safe_spec :
    (hex_to_bytes_safe [] = .error "Empty hex string".toList) ∧
    (∀ l : List Char, l.length % 2 = 1 →
      hex_to_bytes_safe l = hex_to_bytes_safe ('0' :: l)) ∧
    (∀ (l : List Char) (c : Char), c ∈ l → pyIsSpace c = false → hexDigitVal c = none →
      hex_to_bytes_safe l = .error "Invalid hex string".toList) ∧
    (∀ l : List Char, l ≠ [] → (∀ c ∈ l, (hexDigitVal c).isSome = true) →
      ∃ bs, hex_to_bytes_safe l = .ok bs) := by
  refine ⟨rfl, ?_, ?_, ?_⟩
  · intro l hodd
    have hne : l ≠ [] := by
      intro h
      rw [h] at hodd
      simp at hodd
    have hemp : l.isEmpty = false := by
      cases l with
      | nil => exact absurd rfl hne
      | cons a t => rfl
    simp only [hex_to_bytes_safe, hemp, Bool.false_eq_true, if_false, List.isEmpty_cons]
    rw [if_pos (by omega), if_neg (by simp [List.length_cons]; omega)]
  · intro l c hc hcs hcd
    have hne : l ≠ [] := by rintro rfl; cases hc
    have hemp : l.isEmpty = false := by
      cases l with
      | nil => exact absurd rfl hne
      | cons a t => rfl
    have hnone : ∀ l' : List Char, c ∈ l' → pyFromHex l' = none := by
      intro l' hc'
      cases hp : pyFromHex l' with
      | none => rfl
      | some bs =>
        rcases pyFromHex_valid_chars l' bs hp c hc' with h | h
        · rw [hcs] at h; cases h
        · rw [hcd] at h; cases h
    simp only [hex_to_bytes_safe, hemp, Bool.false_eq_true, if_false]
    by_cases hodd : l.length % 2 ≠ 0
    · rw [if_pos hodd, hnone ('0' :: l) (List.mem_cons_of_mem _ hc)]
    · rw [if_neg hodd, hnone l hc]
  · intro l hne hdig
    have hemp : l.isEmpty = false := by
      cases l with
      | nil => exact absurd rfl hne
      | cons a t => rfl
    simp only [hex_to_bytes_safe, hemp, Bool.false_eq_true, if_false]
    by_cases hodd : l.length % 2 ≠ 0
    · rw [if_pos hodd]
      obtain ⟨bs, hbs⟩ :=
        pyFromHex_all_digits ('0' :: l)
          (by
            intro c hc
            rcases List.mem_cons.mp hc with hc | hc
            · rw [hc]; decide
            · exact hdig c hc)
          (by simp [List.length_cons]; omega)
      exact ⟨bs, by rw [hbs]⟩
    · rw [if_neg hodd]
      obtain ⟨bs, hbs⟩ := pyFromHex_all_digits l hdig (by omega)
      exact ⟨bs, by rw [hbs]⟩

/-- C6 amended witness at concrete inputs: `"abc"` is odd-length and decodes
like `"0abc"`; `"xy"` contains a non-hex, non-space character and fails;
`"AB"` is all hex digits and decodes. -/
theorem c6_hex_to_bytes_safe_spec_witness :
    hex_to_bytes_safe ['a', 'b', 'c'] = hex_to_bytes_safe ['0', 'a', 'b', 'c'] ∧
    hex_to_bytes_safe ['x', 'y'] = .error "Invalid hex string".toList ∧
    ∃ bs, hex_to_bytes_safe ['A', 'B'] = .ok bs :=
  ⟨c6_hex_to_bytes_safe_spec.2.1 ['a', 'b', 'c'] (by decide),
   c6_hex_to_bytes_safe_spec.2.2.1 ['x', 'y'] 'x' (by decide) (by decide) (by decide),
   c6_hex_to_bytes_safe_spec.2.2.2 ['A', 'B'] (by decide) (by decide)⟩

theorem getSchemeData_setSchemeData_ne (cfg : MultiSchemeConfig) {t s : SchemeName}
    (d : SchemeData) (h : t ≠ s) :
    getSchemeData (setSchemeData cfg t d) s = getSchemeData cfg s := by
  cases t <;> cases s <;> simp_all [getSchemeData, setSchemeData]

theorem getSchemeData_applyConfigOp {cfg : MultiSchemeConfig} {o : ConfigOp} {s : SchemeName}
    (h : opTouchesScheme cfg o s = false) :
    getSchemeData (applyConfigOp cfg o) s = getSchemeData cfg s := by
  cases o with
  | setCurrent s' => cases s <;> rfl
  | reset target =>
    simp only [opTouchesScheme, decide_eq_false_iff_not] at h
    exact getSchemeData_setSchemeData_ne _ _ h
  | resetAll => simp [opTouchesScheme] at h
  | setInit pf tk target =>
    simp only [opTouchesScheme, decide_eq_false_iff_not] at h
    exact getSchemeData_setSchemeData_ne _ _ h
  | appendKey k =>
    simp only [opTouchesScheme, decide_eq_false_iff_not] at h
    exact getSchemeData_setSchemeData_ne _ _ h
  | appendAddr a =>
    simp only [opTouchesScheme, decide_eq_false_iff_not] at h
    exact getSchemeData_setSchemeData_ne _ _ h
  | appendDsk dk =>
    simp only [opTouchesScheme, decide_eq_false_iff_not] at h
    exact getSchemeData_setSchemeData_ne _ _ h
  | appendTx t =>
    simp only [opTouchesScheme, decide_eq_false_iff_not] at h
    exact getSchemeData_setSchemeData_ne _ _ h
  | setDskAvail t b =>
    simp only [opTouchesScheme, decide_eq_false_iff_not] at h
    exact getSchemeData_setSchemeData_ne _ _ h

/-- C2: over any sequence of configuration operations none of which touches
scheme `s` — in particular, any sequence of scheme switches and operations
executed while another scheme is current, with no reset or setup targeting
`s` — scheme `s`'s entire session state (keys, addresses, DSKs, tracer key,
initialized flag) is exactly preserved. -/
theorem c2_session_state_isolation (l : List ConfigOp) :
    ∀ (cfg : MultiSchemeConfig) (s : SchemeName), avoidsScheme s cfg l = true →
      getSchemeData (runConfigOps cfg l) s = getSchemeData cfg s := by
  induction l with
  | nil => intro cfg s _; rfl
  | cons o rest ih =>
    intro cfg s h
    simp only [avoidsScheme, Bool.and_eq_true, Bool.not_eq_true'] at h
    rw [runConfigOps, ih _ _ h.2, getSchemeData_applyConfigOp h.1]

/-- C2 witness: switch stealth→sitaiba, generate a key there, switch back;
stealth's session state is untouched. -/
theorem c2_session_state_isolation_witness :
    avoidsScheme .stealth initialConfig
      [.setCurrent .sitaiba,
       .appendKey ⟨0, ['k'], ['a'], ['b'], [], [], none, .sitaiba⟩,
       .setCurrent .stealth] = true ∧
    getSchemeData (runConfigOps initialConfig
      [.setCurrent .sitaiba,
       .appendKey ⟨0, ['k'], ['a'], ['b'], [], [], none, .sitaiba⟩,
       .setCurrent .stealth]) .stealth = getSchemeData initialConfig .stealth :=
  ⟨by decide,
   c2_session_state_isolation _ initialConfig .stealth (by decide)⟩

theorem getSchemeData_set_current (cfg : MultiSchemeConfig) (s t : SchemeName) :
    getSchemeData (set_current_scheme cfg s) t = getSchemeData cfg t := by
  cases t <;> rfl

/-- C7: with the scheme initialized, `generate_address` with a key index
that is negative or at least the key-list length fails with the
index-out-of-range error, performs no native call, and leaves every
session collection unchanged (only the current-scheme pointer moves). -/
theorem c7_generate_address_index_guard (env : NativeEnv) (cfg : MultiSchemeConfig)
    (scheme : SchemeName) (N : Int)
    (hinit : (getSchemeData cfg scheme).system_initialized = true)
    (hN : N < 0 ∨ ((getSchemeData cfg scheme).key_list.length : Int) ≤ N) :
    (generate_address env cfg scheme N).result =
      .error (.indexOutOfRange "key_index".toList N
        (getSchemeData cfg scheme).key_list.length) ∧
    (generate_address env cfg scheme N).native = [] ∧
    (generate_address env cfg scheme N).cfg = set_current_scheme cfg scheme := by
  have hv : validIndex N (getSchemeData cfg scheme).key_list.length = false := by
    simp only [validIndex, Bool.and_eq_false_iff, decide_eq_false_iff_not]
    omega
  simp only [generate_address, getSchemeData_set_current, hinit,
    Bool.true_eq_false, if_false, hv, if_true]
  exact ⟨trivial, trivial, trivial⟩

/-- C7 witness: initialized stealth configuration with an empty key list,
index 0 is already out of range. -/
theorem c7_generate_address_index_guard_witness :
    (generate_address witnessEnv witnessCfg .stealth 0).result =
      .error (.indexOutOfRange "key_index".toList 0 0) ∧
    (generate_address witnessEnv witnessCfg .stealth 0).native = [] := by
  refine ⟨(c7_generate_address_index_guard _ _ _ _ ?_ ?_).1,
          (c7_generate_address_index_guard _ _ _ _ ?_ ?_).2.1⟩ <;> decide

/-- C10: `performance_test` always passes `min(iterations, 1000)` to the
native benchmark and reports that clamped value — not the caller's request —
in the `iterations` field of the payload. -/
theorem c10_performance_test_clamp (env : NativeEnv) (cfg : MultiSchemeConfig)
    (scheme : SchemeName) (n : Int)
    (hinit : (getSchemeData cfg scheme).system_initialized = true) :
    (performance_test env cfg scheme n).result =
      .ok ⟨min n 1000, scheme, env.perf (min n 1000)⟩ ∧
    (performance_test env cfg scheme n).native = [.perfCalled (min n 1000)] := by
  simp only [performance_test, getSchemeData_set_current, hinit,
    Bool.true_eq_false, if_false]
  exact ⟨trivial, trivial⟩

/-- C10 witness: a request for 2500 iterations is clamped to 1000. -/
theorem c10_performance_test_clamp_witness :
    (performance_test witnessEnv witnessCfg .stealth 2500).result =
      .ok ⟨1000, .stealth, []⟩ ∧
    (performance_test witnessEnv witnessCfg .stealth 2500).native =
      [.perfCalled 1000] := by
  have h := c10_performance_test_clamp witnessEnv witnessCfg .stealth 2500 (by decide)
  simpa [witnessEnv] using h

theorem getSchemeData_setSchemeData_self (cfg : MultiSchemeConfig) (s : SchemeName)
    (d : SchemeData) : getSchemeData (setSchemeData cfg s d) s = d := by
  cases s <;> rfl

theorem set_initialized_flag (cfg : MultiSchemeConfig) (pf : List Char)
    (tk : TraceKeyRec) (s : SchemeName) :
    (getSchemeData (set_initialized cfg pf tk (some s)) s).system_initialized = true := by
  simp only [set_initialized, Option.getD_some, getSchemeData_setSchemeData_self]

/-- C8: every artifact-producing operation is rejected with the
not-initialized error (and no native call) while the scheme's session is
uninitialized; after a successful `setup_system` the initialized flag is
true, and with the flag set none of those operations is ever rejected by
that check. -/
theorem c8_initialization_gate (env : NativeEnv) (cfg : MultiSchemeConfig)
    (scheme : SchemeName) :
    ((getSchemeData cfg scheme).system_initialized = false →
      ((generate_keypair env cfg scheme).result = .error (.notInitialized scheme) ∧
        (generate_keypair env cfg scheme).native = []) ∧
      (∀ ki, (generate_address env cfg scheme ki).result = .error (.notInitialized scheme) ∧
        (generate_address env cfg scheme ki).native = []) ∧
      (∀ ai ki fast,
        (recognize_address env cfg scheme ai ki fast).result =
          .error (.notInitialized scheme) ∧
        (recognize_address env cfg scheme ai ki fast).native = []) ∧
      (∀ ai ki, (generate_dsk env cfg scheme ai ki).result = .error (.notInitialized scheme) ∧
        (generate_dsk env cfg scheme ai ki).native = []) ∧
      (∀ ai, (trace_identity env cfg scheme ai).result = .error (.notInitialized scheme) ∧
        (trace_identity env cfg scheme ai).native = []) ∧
      (∀ n, (performance_test env cfg scheme n).result = .error (.notInitialized scheme) ∧
        (performance_test env cfg scheme n).native = [])) ∧
    ((getSchemeData cfg scheme).system_initialized = true →
      (generate_keypair env cfg scheme).result ≠ .error (.notInitialized scheme) ∧
      (∀ ki, (generate_address env cfg scheme ki).result ≠
        .error (.notInitialized scheme)) ∧
      (∀ ai ki fast, (recognize_address env cfg scheme ai ki fast).result ≠
        .error (.notInitialized scheme)) ∧
      (∀ ai ki, (generate_dsk env cfg scheme ai ki).result ≠
        .error (.notInitialized scheme)) ∧
      (∀ ai, (trace_identity env cfg scheme ai).result ≠
        .error (.notInitialized scheme)) ∧
      (∀ n, (performance_test env cfg scheme n).result ≠
        .error (.notInitialized scheme))) ∧
    (∀ pf, (setup_system env cfg scheme pf).result.isOk = true →
      (getSchemeData (setup_system env cfg scheme pf).cfg scheme).system_initialized = true) := by
  refine ⟨?_, ?_, ?_⟩
  · intro h
    refine ⟨?_, fun ki => ?_, fun ai ki fast => ?_, fun ai ki => ?_, fun ai => ?_, fun n => ?_⟩ <;>
      simp [generate_keypair, generate_address, recognize_address, generate_dsk,
        trace_identity, performance_test, getSchemeData_set_current, h]
  · intro h
    refine ⟨?_, fun ki => ?_, fun ai ki fast => ?_, fun ai ki => ?_, fun ai => ?_, fun n => ?_⟩ <;>
      · simp only [generate_keypair, generate_address, recognize_address, generate_dsk,
          trace_identity, performance_test, getSchemeData_set_current, h,
          Bool.true_eq_false, if_false]
        repeat' split
        all_goals simp
  · intro pf hok
    by_cases h1 : env.paramFileExists pf = false
    · simp [setup_system, h1, Except.isOk, Except.toBool] at hok
    · by_cases h2 : env.initCode pf ≠ 0
      · simp [setup_system, h1, h2, Except.isOk, Except.toBool] at hok
      · by_cases h3 : env.libInitialized = false
        · simp [setup_system, h1, h2, h3, Except.isOk, Except.toBool] at hok
        · simp only [setup_system, if_neg h1, if_neg h2, if_neg h3]
          cases hda : env.dskAvail with
          | none => exact set_initialized_flag _ _ _ _
          | some b =>
            rw [getSchemeData_setSchemeData_self]
            exact set_initialized_flag _ _ _ _

/-- C8 witness: with the concrete environment, the uninitialized default
configuration rejects `generate_keypair` with the not-initialized error, the
initialized configuration is not rejected by that check, and a successful
concrete `setup_system` run sets the initialized flag. -/
theorem c8_initialization_gate_witness :
    (generate_keypair witnessEnv initialConfig .stealth).result =
      .error (.notInitialized .stealth) ∧
    (generate_keypair witnessEnv witnessCfg .stealth).result ≠
      .error (.notInitialized .stealth) ∧
    (getSchemeData (setup_system witnessEnv initialConfig .stealth ['a']).cfg
      .stealth).system_initialized = true :=
  ⟨((c8_initialization_gate witnessEnv initialConfig .stealth).1 (by decide)).1.1,
   ((c8_initialization_gate witnessEnv witnessCfg .stealth).2.1 (by decide)).1,
   (c8_initialization_gate witnessEnv initialConfig .stealth).2.2 ['a'] (by decide)⟩

theorem sitaibaExactFind_none_iff (keys : List KeyItem) (t : List Char) :
    sitaibaExactFind keys t = none ↔ ∀ k ∈ keys, k.B_hex ≠ t := by
  induction keys with
  | nil => simp [sitaibaExactFind]
  | cons k rest ih =>
    by_cases hk : k.B_hex = t
    · simp [sitaibaExactFind, hk]
    · simp [sitaibaExactFind, hk, ih]

theorem sitaibaExactFind_some (keys : List KeyItem) (t : List Char) (k : KeyItem)
    (h : sitaibaExactFind keys t = some k) : k ∈ keys ∧ k.B_hex = t := by
  induction keys with
  | nil => cases h
  | cons k0 rest ih =>
    by_cases hk : k0.B_hex = t
    · rw [sitaibaExactFind, if_pos hk] at h
      cases h
      exact ⟨List.mem_cons_self _ _, hk⟩
    · rw [sitaibaExactFind, if_neg hk] at h
      obtain ⟨hm, hb⟩ := ih h
      exact ⟨List.mem_cons_of_mem _ hm, hb⟩

theorem sitaibaPartialFind_none (keys : List KeyItem) (p : List Char)
    (h : sitaibaPartialFind keys p = none) :
    ∀ k ∈ keys, p.isPrefixOf k.B_hex = false := by
  induction keys with
  | nil => simp
  | cons k0 rest ih =>
    by_cases hk : p.isPrefixOf k0.B_hex
    · rw [sitaibaPartialFind, if_pos hk] at h; cases h
    · rw [sitaibaPartialFind, if_neg hk] at h
      intro k hm
      rcases List.mem_cons.mp hm with hm | hm
      · subst hm; exact Bool.not_eq_true _ ▸ Bool.of_not_eq_true hk
      · exact ih h k hm

theorem sitaibaPartialFind_some (keys : List KeyItem) (p : List Char) (k : KeyItem)
    (h : sitaibaPartialFind keys p = some k) :
    k ∈ keys ∧ p.isPrefixOf k.B_hex = true := by
  induction keys with
  | nil => cases h
  | cons k0 rest ih =>
    by_cases hk : p.isPrefixOf k0.B_hex
    · rw [sitaibaPartialFind, if_pos hk] at h
      cases h
      exact ⟨List.mem_cons_self _ _, hk⟩
    · rw [sitaibaPartialFind, if_neg hk] at h
      obtain ⟨hm, hb⟩ := ih h
      exact ⟨List.mem_cons_of_mem _ hm, hb⟩

theorem stealthFindAux_none_iff (t : List Char) (keys : List KeyItem) :
    ∀ i, (stealthFindAux t i keys = none ↔ ∀ k ∈ keys, k.B_hex ≠ t) := by
  induction keys with
  | nil => intro i; simp [stealthFindAux]
  | cons k0 rest ih =>
    intro i
    by_cases hk : k0.B_hex = t
    · simp [stealthFindAux, hk]
    · simp [stealthFindAux, hk, ih (i + 1)]

/-- C9 counterexample: for a stored key whose `B_hex` shares its first ten
characters with the trace target, stealth's `find_matching_key` returns no
match at all (it has no partial-prefix fallback), while sitaiba's returns the
partial match; so the claimed fallback does not exist "for every scheme". -/
theorem c9_counterexample :
    stealth_find_matching_key
      [⟨0, ['k'], ['a'], "aabbccddee0011".toList, [], [], none, .stealth⟩]
      "aabbccddee9999".toList = none ∧
    sitaiba_find_matching_key
      [⟨0, ['k'], ['a'], "aabbccddee0011".toList, [], [], none, .stealth⟩]
      "aabbccddee9999".toList =
      some ⟨0, ['k'], ['a'], "aabbccddee0011".toList, "partial".toList⟩ := by
  decide

/-- C9 (amended): sitaiba's `find_matching_key` tries an exact `B_hex` match
first (tagged `"perfect"`) and otherwise falls back to a first-10-characters
prefix match tagged `"partial"`, returning `none` only when neither exists;
stealth's `find_matching_key` performs exact matching only — it returns a
match precisely when some stored key equals the target, with no partial
fallback. -/
theorem c9_trace_key_matching (keys : List KeyItem) (target : List Char) :
    (stealth_find_matching_key keys target = none ↔ ∀ k ∈ keys, k.B_hex ≠ target) ∧
    (target ≠ [] → ∀ m, sitaiba_find_matching_key keys target = some m →
      (m.match_type = "perfect".toList ∧ ∃ k ∈ keys, k.B_hex = target) ∨
      (m.match_type = "partial".toList ∧ (∀ k ∈ keys, k.B_hex ≠ target) ∧
        ∃ k ∈ keys, (sitaibaTargetHead target).isPrefixOf k.B_hex = true)) ∧
    (target ≠ [] → sitaiba_find_matching_key keys target = none →
      (∀ k ∈ keys, k.B_hex ≠ target) ∧
      ∀ k ∈ keys, (sitaibaTargetHead target).isPrefixOf k.B_hex = false) := by
  have hemp : target ≠ [] → target.isEmpty = false := by
    intro h
    cases target with
    | nil => exact absurd rfl h
    | cons a t => rfl
  refine ⟨stealthFindAux_none_iff target keys 0, ?_, ?_⟩
  · intro hne m hm
    rw [sitaiba_find_matching_key, if_neg (by simp [hemp hne])] at hm
    cases hex : sitaibaExactFind keys target with
    | some k =>
      rw [hex] at hm
      cases hm
      exact Or.inl ⟨rfl, k, (sitaibaExactFind_some keys target k hex).1,
        (sitaibaExactFind_some keys target k hex).2⟩
    | none =>
      rw [hex] at hm
      cases hp : sitaibaPartialFind keys (sitaibaTargetHead target) with
      | some k =>
        rw [hp] at hm
        cases hm
        exact Or.inr ⟨rfl, (sitaibaExactFind_none_iff keys target).mp hex,
          k, (sitaibaPartialFind_some keys _ k hp).1,
          (sitaibaPartialFind_some keys _ k hp).2⟩
      | none => rw [hp] at hm; cases hm
  · intro hne hm
    rw [sitaiba_find_matching_key, if_neg (by simp [hemp hne])] at hm
    cases hex : sitaibaExactFind keys target with
    | some k => rw [hex] at hm; cases hm
    | none =>
      rw [hex] at hm
      cases hp : sitaibaPartialFind keys (sitaibaTargetHead target) with
      | some k => rw [hp] at hm; cases hm
      | none =>
        exact ⟨(sitaibaExactFind_none_iff keys target).mp hex,
          sitaibaPartialFind_none keys _ hp⟩

/-- C9 amended witness: exact match case for sitaiba (tagged perfect) and
presence/absence of a stealth match at concrete inputs. -/
theorem c9_trace_key_matching_witness :
    ((stealth_find_matching_key
        [⟨0, ['k'], ['a'], ['b', 'b'], [], [], none, .stealth⟩] ['z'] = none) ↔
      (∀ k ∈ [(⟨0, ['k'], ['a'], ['b', 'b'], [], [], none, .stealth⟩ : KeyItem)],
        k.B_hex ≠ ['z'])) ∧
    (((⟨0, ['k'], ['a'], ['b', 'b'], "perfect".toList⟩ : SitaibaMatch).match_type =
        "perfect".toList ∧
      ∃ k ∈ [(⟨0, ['k'], ['a'], ['b', 'b'], [], [], none, .stealth⟩ : KeyItem)],
        k.B_hex = ['b', 'b']) ∨
    ((⟨0, ['k'], ['a'], ['b', 'b'], "perfect".toList⟩ : SitaibaMatch).match_type =
        "partial".toList ∧
      (∀ k ∈ [(⟨0, ['k'], ['a'], ['b', 'b'], [], [], none, .stealth⟩ : KeyItem)],
        k.B_hex ≠ ['b', 'b']) ∧
      ∃ k ∈ [(⟨0, ['k'], ['a'], ['b', 'b'], [], [], none, .stealth⟩ : KeyItem)],
        (sitaibaTargetHead ['b', 'b']).isPrefixOf k.B_hex = true)) :=
  ⟨(c9_trace_key_matching
      [⟨0, ['k'], ['a'], ['b', 'b'], [], [], none, .stealth⟩] ['z']).1,
   (c9_trace_key_matching
      [⟨0, ['k'], ['a'], ['b', 'b'], [], [], none, .stealth⟩] ['b', 'b']).2.1
     (by decide) ⟨0, ['k'], ['a'], ['b', 'b'], "perfect".toList⟩ (by decide)⟩

/-- C1 counterexample: with `betaScheme` active — `sign` excluded from its
declared capabilities yet `sign_message` implemented — the facade dispatch
invokes the implementation instead of failing with a capability error. -/
theorem c1_counterexample :
    supports_capability ⟨some betaScheme, some "beta".toList⟩ "sign".toList = false ∧
    sign_message ⟨some betaScheme, some "beta".toList⟩ [] =
      .invoked [("status".toList, "signed".toList)] ∧
    sign_message ⟨some betaScheme, some "beta".toList⟩ [] ≠ .capabilityNotSupported := by
  refine ⟨by decide, rfl, by decide⟩

/-- C1 (amended): the facade `SchemeManager.sign_message` performs no
capability check at all: with any active scheme it never yields a
capability error; it fails with `NotImplementedError` exactly when the
scheme class does not override `sign_message` (irrespective of the declared
capability set), and whenever the class implements the method, the
implementation — and thus the underlying adapter — is invoked, even when
`sign` is excluded from the declared capability set.  (The capability check
of the concrete scenario lives in the out-of-scope HTTP routing layer.) -/
theorem c1_no_capability_gate (m : PluginManagerState) (s : PluginScheme)
    (h : m.activeScheme = some s) (kwargs : List (List Char × List Char)) :
    sign_message m kwargs ≠ .capabilityNotSupported ∧
    (s.signMessageImpl = none →
      sign_message m kwargs = .notImplementedErr s.info.name) ∧
    (∀ f, s.signMessageImpl = some f →
      sign_message m kwargs = .invoked (f kwargs)) := by
  refine ⟨?_, ?_, ?_⟩
  · cases hsi : s.signMessageImpl <;> simp [sign_message, h, hsi]
  · intro hn
    simp [sign_message, h, hn]
  · intro f hf
    simp [sign_message, h, hf]

/-- C1 amended witness at `betaScheme`. -/
theorem c1_no_capability_gate_witness :
    sign_message ⟨some betaScheme, some "beta".toList⟩ [] ≠ .capabilityNotSupported ∧
    sign_message ⟨some betaScheme, some "beta".toList⟩ [] =
      .invoked [("status".toList, "signed".toList)] :=
  ⟨(c1_no_capability_gate ⟨some betaScheme, some "beta".toList⟩ betaScheme rfl []).1,
   (c1_no_capability_gate ⟨some betaScheme, some "beta".toList⟩ betaScheme rfl []).2.2
     (fun _ => [("status".toList, "signed".toList)]) rfl⟩

/-- C3 counterexample: switching away from an initialized scheme whose
library exports no cleanup symbol releases the library and loads the new
one without ever invoking cleanup, refuting "cleanup is invoked if and only
if it was initialized". -/
theorem c3_counterexample :
    switch_scheme ⟨fun _ => true, fun _ => false, fun _ => true⟩
      ⟨some .myStealth, some .myStealth, true⟩ .sitaiba =
      .ok (⟨some .sitaiba, some .sitaiba, false⟩,
           [.libReleased .myStealth, .libLoaded .sitaiba]) ∧
    (⟨some .myStealth, some .myStealth, true⟩ : LibManagerState).initialized = true ∧
    LibEv.cleanupCalled .myStealth ∉
      [LibEv.libReleased .myStealth, LibEv.libLoaded .sitaiba] := by
  refine ⟨rfl, rfl, by decide⟩

/-- C3 (amended): after every successful `switch_scheme(sid)` the manager
holds `sid` uninitialized with its library loaded; the previous scheme's
cleanup was invoked if and only if a library was loaded, the previous scheme
was initialized, and its library exports a cleanup symbol; and the previous
library handle is released before the new library is loaded. -/
theorem c3_switch_scheme_teardown (env : LibEnv) (st : LibManagerState)
    (sid : LibSchemeId) (st' : LibManagerState) (evs : List LibEv)
    (h : switch_scheme env st sid = .ok (st', evs)) :
    st'.current_scheme = some sid ∧ st'.loaded_lib = some sid ∧
    st'.initialized = false ∧
    (∀ cur, LibEv.cleanupCalled cur ∈ evs ↔
      st.loaded_lib.isSome = true ∧ st.current_scheme = some cur ∧
      st.initialized = true ∧ env.hasCleanup cur = true) ∧
    (∃ pre, evs = pre ++ [LibEv.libLoaded sid] ∧
      ∀ l, st.loaded_lib = some l → LibEv.libReleased l ∈ pre) := by
  obtain ⟨cur0, lib0, init0⟩ := st
  by_cases hav : env.available sid = false
  · rw [switch_scheme, if_pos hav] at h
    cases h
  · rw [switch_scheme, if_neg hav] at h
    by_cases hbind : env.bindOk sid
    · rw [if_pos hbind] at h
      injection h with h
      injection h with hst hevs
      subst hst
      subst hevs
      refine ⟨rfl, rfl, rfl, ?_, ?_⟩
      · intro cur
        cases lib0 with
        | none => simp
        | some l =>
          cases cur0 with
          | none => simp [cleanup_current_scheme]
          | some cur' =>
            by_cases hcl : (init0 && env.hasCleanup cur') = true
            · obtain ⟨hi, hcu⟩ := Bool.and_eq_true_iff.mp hcl
              subst hi
              simp only [cleanup_current_scheme, hcl, if_true, Option.isSome_some]
              constructor
              · intro hm
                simp at hm
                subst hm
                simp [hcu]
              · rintro ⟨-, hcc, -, -⟩
                injection hcc with hcc
                subst hcc
                simp
            · simp only [cleanup_current_scheme, hcl, if_false, Option.isSome_some]
              constructor
              · intro hm
                simp at hm
              · rintro ⟨-, hcc, hi, hcu⟩
                injection hcc with hcc
                subst hcc
                exact absurd (by simp [hi, hcu]) hcl
      · cases lib0 with
        | none =>
          refine ⟨[], by simp, ?_⟩
          intro l hll
          cases hll
        | some l =>
          refine ⟨(cleanup_current_scheme env ⟨cur0, some l, init0⟩).2, by simp, ?_⟩
          intro l' hll
          injection hll with hll
          subst hll
          cases cur0 with
          | none => simp [cleanup_current_scheme]
          | some cur' =>
            by_cases hcl : (init0 && env.hasCleanup cur') = true <;>
              simp [cleanup_current_scheme, hcl]
    · rw [if_neg hbind] at h
      cases h

/-- C3 amended witness at a concrete successful switch: initialized previous
scheme with a cleanup-exporting library, switched to sitaiba. -/
theorem c3_switch_scheme_teardown_witness :
    (⟨some .sitaiba, some .sitaiba, false⟩ : LibManagerState).current_scheme =
      some .sitaiba ∧
    (⟨some .sitaiba, some .sitaiba, false⟩ : LibManagerState).loaded_lib =
      some .sitaiba ∧
    (⟨some .sitaiba, some .sitaiba, false⟩ : LibManagerState).initialized = false ∧
    (∀ cur, LibEv.cleanupCalled cur ∈
        ([.cleanupCalled .myStealth, .libReleased .myStealth,
          .libLoaded .sitaiba] : List LibEv) ↔
      (⟨some .myStealth, some .myStealth, true⟩ : LibManagerState).loaded_lib.isSome =
        true ∧
      (⟨some .myStealth, some .myStealth, true⟩ : LibManagerState).current_scheme =
        some cur ∧
      (⟨some .myStealth, some .myStealth, true⟩ : LibManagerState).initialized = true ∧
      (⟨fun _ => true, fun _ => true, fun _ => true⟩ : LibEnv).hasCleanup cur = true) ∧
    (∃ pre, ([.cleanupCalled .myStealth, .libReleased .myStealth,
          .libLoaded .sitaiba] : List LibEv) = pre ++ [LibEv.libLoaded .sitaiba] ∧
      ∀ l, (⟨some .myStealth, some .myStealth, true⟩ : LibManagerState).loaded_lib =
          some l → LibEv.libReleased l ∈ pre) :=
  c3_switch_scheme_teardown ⟨fun _ => true, fun _ => true, fun _ => true⟩
    ⟨some .myStealth, some .myStealth, true⟩ .sitaiba
    ⟨some .sitaiba, some .sitaiba, false⟩
    [.cleanupCalled .myStealth, .libReleased .myStealth, .libLoaded .sitaiba] rfl
